import Mathlib

/-!
Verification development for the v4l2 MJPEG streamer.

Shallow embedding of the frame distribution pipeline: the dual-resolution
frame store (`FrameBuffer`), the demand tracker (`activeClients`, modelled
as the integer gate value read by the production loop), the coalescing
notification channel (`trySend` over a pending count with capacity one),
the production loop body (`frameStep` / `captureStep`), the per-connection
streaming loop (`writeChunk`, `handlerTrace`), the multi-consumer system
model (`sysStep`), and the stdin command dispatcher (`dispatchParts`).

Frames are opaque byte sequences, modelled as `List Nat` (byte values).
A Go nil slice held in a `FrameBuffer` slot is modelled as `none`.
The transcode operation (`resizeMJPEGTurbo`) is external to the core and
is passed in as a function `Frame → Option Frame` (`none` = error).
-/

/-- A compressed image frame: an opaque byte sequence (byte values). -/
abbrev Frame := List Nat

/-- Exit code for normal termination (part_001 line 30). -/
def ExitCodeNormal : Nat := 0

/-- Exit code for a generic unrecoverable error (part_001 line 31). -/
def ExitCodeGenericError : Nat := 1

/-- Exit code for USB capture-device loss (part_001 line 32). -/
def ExitCodeUSBError : Nat := 2

/-- The dual-slot frame store (`FrameBuffer` in part_001 lines 40-44).
`none` models a Go nil slice (slot never written). -/
structure FrameBuffer where
  currentFullFrame : Option Frame
  currentSDFrame : Option Frame
deriving DecidableEq

/-- `FrameBuffer.Update` (part_001 lines 46-57): unconditionally replaces the
full-resolution slot with a copy of `frameFull`; replaces the SD slot only
when `frameSD` is non-nil. Copying is identity in the functional model. -/
def FrameBuffer.Update (fb : FrameBuffer) (frameFull : Frame) (frameSD : Option Frame) :
    FrameBuffer :=
  { currentFullFrame := some frameFull
    currentSDFrame :=
      match frameSD with
      | some sd => some sd
      | none => fb.currentSDFrame }

/-- `FrameBuffer.GetSD` (part_001 lines 59-68): returns a copy of the SD slot,
or nil when the slot was never written. -/
def FrameBuffer.GetSD (fb : FrameBuffer) : Option Frame := fb.currentSDFrame

/-- `FrameBuffer.GetFull` (part_001 lines 70-79). -/
def FrameBuffer.GetFull (fb : FrameBuffer) : Option Frame := fb.currentFullFrame

/-- The frame store as constructed at startup (part_001 line 93): both slots nil. -/
def FrameBuffer.empty : FrameBuffer := ⟨none, none⟩

/-- Capacity of `newFrameNotifyChan` (part_001 line 94: `make(chan struct\x7b\x7d, 1)`). -/
def notifyChanCapacity : Nat := 1

/-- The non-blocking send into the buffered notification channel
(part_001 lines 191-195: `select` with a `default` branch). The channel
state is the number of pending notifications in its buffer. A send
succeeds only while the buffer is below capacity; otherwise it is a no-op. -/
def trySend (pending : Nat) : Nat :=
  if pending < notifyChanCapacity then pending + 1 else pending

/-- State carried by the production loop: the shared frame store and the
notification channel buffer. -/
structure LoopState where
  fb : FrameBuffer
  notify : Nat
deriving DecidableEq

/-- Startup state: empty frame store, empty notification channel. -/
def LoopState.start : LoopState := ⟨FrameBuffer.empty, 0⟩

/-- Body of the per-frame branch of `captureFrames` (part_001 lines 173-199):
read the demand tracker (`activeClients`, an int32 read atomically); when
positive, transcode, store both resolutions, and signal the notification
channel; on transcode failure discard the frame; when no clients are
attached, discard the frame without touching the store or the channel.
Returns the successor state together with the number of transcode
invocations performed (0 or 1). -/
def frameStep (transcode : Frame → Option Frame) (activeClients : Int)
    (s : LoopState) (data : Frame) : LoopState × Nat :=
  if 0 < activeClients then
    match transcode data with
    | none => (s, 1)
    | some resized =>
        ({ fb := s.fb.Update data (some resized), notify := trySend s.notify }, 1)
  else (s, 0)

/-- Events delivered to the `captureFrames` select loop (part_001 lines 160-201). -/
inductive CaptureEvent where
  | ctxDone
  | chanClosed
  | frameNil
  | frame (data : Frame)
deriving DecidableEq

/-- Outcome of one iteration of the `captureFrames` loop. -/
inductive StepResult where
  | exit (code : Nat)
  | ret
  | continue (s : LoopState) (transcodeCalls : Nat)
deriving DecidableEq

/-- One iteration of `captureFrames` (part_001 lines 160-201): context
cancellation returns from the goroutine; a closed frame channel exits the
process with the USB-error status; a nil frame is skipped; otherwise the
per-frame branch `frameStep` runs. -/
def captureStep (transcode : Frame → Option Frame) (activeClients : Int)
    (s : LoopState) : CaptureEvent → StepResult
  | .ctxDone => .ret
  | .chanClosed => .exit ExitCodeUSBError
  | .frameNil => .continue s 0
  | .frame data =>
      let p := frameStep transcode activeClients s data
      .continue p.1 p.2

/-- The production loop run over a sequence of delivered frames at a fixed
demand-tracker reading: iterated `frameStep`. -/
def runFrames (transcode : Frame → Option Frame) (activeClients : Int)
    (s : LoopState) : List Frame → LoopState
  | [] => s
  | f :: fs => runFrames transcode activeClients (frameStep transcode activeClients s f).1 fs

/-- The production loop run over delivered frames where the demand-tracker
reading may differ at each delivery (clients attach and detach concurrently):
each list element pairs the `activeClients` value read for that frame with
the frame's bytes. -/
def captureTrace (transcode : Frame → Option Frame)
    (s : LoopState) : List (Int × Frame) → LoopState
  | [] => s
  | (c, f) :: rest => captureTrace transcode (frameStep transcode c s f).1 rest

/-- Bytes of a string, as byte values (all emitted header text is ASCII). -/
def bytesOfString (s : String) : List Nat := s.data.map (fun c => c.toNat)

/-- The bytes emitted for one multipart chunk by the streaming loop
(part_001 lines 254-261): boundary line, Content-Type line, Content-Length
line followed by a blank line, the raw frame bytes, a trailing CRLF. -/
def writeChunk (frame : Frame) : List Nat :=
  bytesOfString "--frame\r\n"
    ++ bytesOfString "Content-Type: image/jpeg\r\n"
    ++ bytesOfString ("Content-Length: " ++ toString frame.length ++ "\r\n\r\n")
    ++ frame
    ++ bytesOfString "\r\n"

/-- The chunk byte sequence as the spec words it: the single literal
sequence with the length and payload spliced in. -/
def specChunk (frame : Frame) : List Nat :=
  bytesOfString
      ("--frame\r\nContent-Type: image/jpeg\r\nContent-Length: "
        ++ toString frame.length ++ "\r\n\r\n")
    ++ frame
    ++ bytesOfString "\r\n"

/-- State of the whole streaming system for the multi-consumer notification
analysis: the frame store, the single shared notification channel
(part_001 line 94), and, per attached streaming loop, the list of frames
that loop has written to its client so far. -/
structure StreamSys where
  fb : FrameBuffer
  notify : Nat
  observed : List (List Frame)
deriving DecidableEq

/-- Interleaving events of the streaming system: the production loop
delivers a frame, or the streaming loop of consumer `i` completes one
receive from the shared channel (one iteration of
`for range newFrameNotifyChan`, part_001 lines 248-263). -/
inductive SysEvent where
  | produce (f : Frame)
  | recv (i : Nat)
deriving DecidableEq

/-- One step of the streaming system. `produce f` is the per-frame branch of
`captureFrames` with at least one client attached (transcode, store, best
effort send). `recv i` is enabled only when a notification is pending in
the shared channel: the receive removes it, and consumer `i` then reads
the SD slot and writes it (skipping a nil read). A `recv` on an empty
channel is disabled (`none`): the Go receive blocks until a send occurs. -/
def sysStep (transcode : Frame → Option Frame) (s : StreamSys) : SysEvent → Option StreamSys
  | .produce f =>
      match transcode f with
      | none => some s
      | some resized =>
          some { s with
                 fb := s.fb.Update f (some resized)
                 notify := trySend s.notify }
  | .recv i =>
      if 0 < s.notify then
        match s.fb.GetSD with
        | none => some { s with notify := s.notify - 1 }
        | some fr =>
            some { s with
                   notify := s.notify - 1
                   observed := s.observed.set i (s.observed.getD i [] ++ [fr]) }
      else none

/-- Run of the streaming system along a schedule of events; `none` when the
schedule asks a blocked consumer to proceed. -/
def runEvents (transcode : Frame → Option Frame) (s : StreamSys) :
    List SysEvent → Option StreamSys
  | [] => some s
  | e :: es =>
      match sysStep transcode s e with
      | none => none
      | some s2 => runEvents transcode s2 es

/-- Counter operations and writes performed by one `/stream` connection
handler, in order (part_001 lines 226-263). -/
inductive ConnEvent where
  | attach
  | emitChunk (f : Frame)
  | httpError
  | detach
deriving DecidableEq

/-- How one `/stream` connection handler terminates: the response writer
does not support flushing (early return, part_001 lines 241-245), a chunk
write fails after some successful chunks (client disconnect, line 257-260),
or the handler panics mid-stream (net/http recovers handler panics, so
deferred calls still run). -/
inductive ConnOutcome where
  | noFlusher
  | writeFailed (written : List Frame)
  | panicked (written : List Frame)
deriving DecidableEq

/-- The ordered trace of one handler execution: the counter increment at
entry (part_001 line 228), the body's writes, and the deferred decrement
(part_001 lines 232-235), which Go runs on every exit path — early return,
normal return, and panic unwinding alike. -/
def handlerTrace : ConnOutcome → List ConnEvent
  | .noFlusher => [.attach, .httpError, .detach]
  | .writeFailed written => .attach :: (written.map .emitChunk) ++ [.detach]
  | .panicked written => .attach :: (written.map .emitChunk) ++ [.detach]

/-- Effect of one connection event on the `activeClients` counter
(`atomic.AddInt32` with +1 and -1; writes do not touch the counter). -/
def applyConn (c : Int) : ConnEvent → Int
  | .attach => c + 1
  | .detach => c - 1
  | .emitChunk _ => c
  | .httpError => c

/-- The `activeClients` counter after a sequence of connection events. -/
def runConn (c : Int) (tr : List ConnEvent) : Int := tr.foldl applyConn c

/-- Whether a connection event is the attach increment. -/
def isAttach : ConnEvent → Bool
  | .attach => true
  | _ => false

/-- Whether a connection event is the deferred detach decrement. -/
def isDetach : ConnEvent → Bool
  | .detach => true
  | _ => false

/-- Go `unicode.IsSpace` on the code points that decide field splitting:
tab, LF, VT, FF, CR (U+0009 to U+000D), space, NEL (U+0085), and NBSP
(U+00A0), plus the Unicode White_Space code points above U+00FF. -/
def goIsSpace (c : Char) : Bool :=
  (9 ≤ c.toNat && c.toNat ≤ 13) || c.toNat = 32 || c.toNat = 133 || c.toNat = 160 ||
    c.toNat = 5760 || (8192 ≤ c.toNat && c.toNat ≤ 8202) || c.toNat = 8232 ||
    c.toNat = 8233 || c.toNat = 8239 || c.toNat = 8287 || c.toNat = 12288

/-- `strings.Fields`: split a character sequence on `unicode.IsSpace`
runs, dropping empty fields. Folding step: a space character closes the
word in progress (if any); any other character extends it. -/
def fieldsStep (acc : List (List Char) × List Char) (c : Char) :
    List (List Char) × List Char :=
  if goIsSpace c then
    match acc.2 with
    | [] => (acc.1, [])
    | w => (acc.1 ++ [w], [])
  else (acc.1, acc.2 ++ [c])

/-- `strings.Fields` over the characters of a command line (part_001
line 279; the preceding `TrimSpace` does not change the field list). -/
def fields (cs : List Char) : List (List Char) :=
  let r := cs.foldl fieldsStep ([], [])
  match r.2 with
  | [] => r.1
  | w => r.1 ++ [w]

/-- Value of a digit run, most significant first. -/
def digitsToNat (ds : List Char) : Nat :=
  ds.foldl (fun a c => a * 10 + (c.toNat - 48)) 0

/-- `fmt.Sscanf` with verb `%d` into a `uint32` (part_001 line 503): reads a
leading decimal digit run, fails when there is none or the value overflows
`uint32`; trailing characters after the digits are not consumed and do not
make the scan fail. -/
def sscanUint32 (cs : List Char) : Option Nat :=
  let ds := cs.takeWhile Char.isDigit
  if ds = [] then none
  else if digitsToNat ds < 2 ^ 32 then some (digitsToNat ds) else none

/-- `fmt.Sscanf` with verb `%d` into an `int32` (part_001 line 514): the
signed scan accepts an optional `+` or `-` sign, then requires a decimal
digit run, with an `int32` range check; trailing characters after the
digits are not consumed and do not make the scan fail. -/
def sscanInt32 (cs : List Char) : Option Int :=
  match cs with
  | '-' :: rest =>
      let ds := rest.takeWhile Char.isDigit
      if ds = [] then none
      else if digitsToNat ds ≤ 2 ^ 31 then some (-(digitsToNat ds : Int)) else none
  | '+' :: rest =>
      let ds := rest.takeWhile Char.isDigit
      if ds = [] then none
      else if digitsToNat ds < 2 ^ 31 then some (digitsToNat ds) else none
  | _ =>
      let ds := cs.takeWhile Char.isDigit
      if ds = [] then none
      else if digitsToNat ds < 2 ^ 31 then some (digitsToNat ds) else none

/-- Reasons a SET_CONTROL line is answered with a structured
`set_control_response` error instead of a device call. -/
inductive ControlError where
  | badArity
  | badID
  | badValue
deriving DecidableEq

/-- Structured outcome of dispatching one stdin command line. `ignored`
covers blank lines and unknown commands (the loop reads the next line);
`setControlError` is the structured error response written by
`listenStdin` (bad arity, part_001 lines 295-300) or by `setControl`
(non-numeric id or value, lines 501-521); `setControlRequest` means the
arguments passed validation and the device call is made. -/
inductive CmdResult where
  | ignored
  | captureDone
  | infoShown
  | controlsListed
  | setControlError (e : ControlError)
  | setControlRequest (id : Nat) (value : Int)
deriving DecidableEq

/-- Handling of the arguments of a SET_CONTROL command: the arity check in
`listenStdin` (part_001 lines 295-300: `len(parts) != 3`) and the two
numeric scans in `setControl` (part_001 lines 501-521). -/
def setControlDispatch : List (List Char) → CmdResult
  | [idS, vS] =>
      match sscanUint32 idS with
      | none => .setControlError .badID
      | some id =>
          match sscanInt32 vS with
          | none => .setControlError .badValue
          | some v => .setControlRequest id v
  | _ => .setControlError .badArity

/-- Dispatch of one already-split command line (part_001 lines 281-305). -/
def dispatchParts : List (List Char) → CmdResult
  | [] => .ignored
  | cmd :: rest =>
      if cmd = "CAPTURE".data then .captureDone
      else if cmd = "INFO".data then .infoShown
      else if cmd = "CONTROLS".data then .controlsListed
      else if cmd = "SET_CONTROL".data then setControlDispatch rest
      else .ignored

/-- Dispatch of one raw command line: split into whitespace-separated
fields, then dispatch. -/
def dispatchLine (line : List Char) : CmdResult := dispatchParts (fields line)

/-- The stdin command loop (part_001 lines 277-306) over a sequence of
input lines: every line is dispatched, and dispatching one line never
prevents the loop from reading the next. -/
def listenStdinRun (lines : List (List Char)) : List CmdResult :=
  lines.map dispatchLine

lemma trySend_le_cap (b : Nat) : trySend b ≤ max b notifyChanCapacity := by
  unfold trySend notifyChanCapacity
  split <;> omega

lemma trySend_of_le_cap (b : Nat) (hb : b ≤ notifyChanCapacity) : trySend b = 1 := by
  unfold trySend notifyChanCapacity at *
  split <;> omega

lemma trySend_iter (k b : Nat) (hb : b ≤ notifyChanCapacity) :
    trySend^[k + 1] b = 1 := by
  induction k generalizing b with
  | zero => simpa using trySend_of_le_cap b hb
  | succ k ih =>
      rw [Function.iterate_succ_apply]
      exact ih (trySend b) (by rw [trySend_of_le_cap b hb]; decide)

/-- C10: calling the frame store's combined update with a full-resolution
frame and a nil viewer-resolution frame replaces only the full slot; the
viewer slot keeps exactly its previous value. -/
theorem update_nil_viewer_keeps_slot (fb : FrameBuffer) (f : Frame) :
    (fb.Update f none).currentSDFrame = fb.currentSDFrame ∧
    (fb.Update f none).currentFullFrame = some f :=
  ⟨rfl, rfl⟩

/-- C5: when the capture source signals channel-closed (end of stream), the
loop exits the process with the dedicated capture-device-loss status, which
differs from both the normal status and the generic-error status. -/
theorem chan_closed_exits_usb_code (t : Frame → Option Frame) (c : Int) (s : LoopState) :
    captureStep t c s .chanClosed = .exit ExitCodeUSBError ∧
    ExitCodeUSBError ≠ ExitCodeNormal ∧ ExitCodeUSBError ≠ ExitCodeGenericError :=
  ⟨rfl, by decide, by decide⟩

/-- C1 counterexample: with zero attached clients, delivering a frame leaves
the production-loop state completely unchanged — in particular the
full-resolution slot is NOT updated with the delivered frame, contrary to
the claim. -/
theorem zero_demand_full_not_updated :
    captureStep (fun f => some f) 0 LoopState.start (.frame [37]) =
      .continue LoopState.start 0 ∧
    LoopState.start.fb.currentFullFrame ≠ some [37] := by
  constructor
  · decide
  · decide

/-- C1 (amended): for every frame delivered while the demand tracker reads
zero, the production loop performs no transcode invocation and leaves both
frame-store slots and the notification channel unchanged: the frame is
discarded entirely. -/
theorem zero_demand_discards_frame (t : Frame → Option Frame) (s : LoopState) (f : Frame) :
    captureStep t 0 s (.frame f) = .continue s 0 := by
  simp [captureStep, frameStep]

/-- C8: the production loop's new-frame signal is a non-blocking send into
the capacity-one notification channel: starting from any reachable buffer
state (at most one pending), the send leaves at most one notification
pending, is a no-op when one is already pending, successive sends before
any drain coalesce into exactly one pending notification, the successful
per-frame branch signals exactly via this send, and the production step on
a frame event always continues (the send never blocks the loop). -/
theorem notify_send_coalesces (b : Nat) (hb : b ≤ notifyChanCapacity) :
    trySend b ≤ notifyChanCapacity ∧
    (b = notifyChanCapacity → trySend b = b) ∧
    (∀ k, trySend^[k + 1] b = notifyChanCapacity) ∧
    (∀ (t : Frame → Option Frame) (s : LoopState) (f sd : Frame), t f = some sd →
      (frameStep t 1 s f).1.notify = trySend s.notify) ∧
    (∀ (t : Frame → Option Frame) (c : Int) (s : LoopState) (f : Frame),
      ∃ s2 n, captureStep t c s (.frame f) = .continue s2 n) := by
  refine ⟨?_, ?_, ?_, ?_, ?_⟩
  · rw [trySend_of_le_cap b hb]; decide
  · intro h1
    rw [trySend_of_le_cap b hb, h1]; decide
  · intro k
    exact trySend_iter k b hb
  · intro t s f sd ht
    simp [frameStep, ht]
  · intro t c s f
    exact ⟨_, _, rfl⟩

/-- C8 witness: two successive sends into the empty channel leave exactly
one notification pending. -/
theorem notify_send_coalesces_witness : trySend^[1 + 1] 0 = notifyChanCapacity :=
  (notify_send_coalesces 0 (by decide)).2.2.1 1

lemma bytesOfString_append (a b : String) :
    bytesOfString (a ++ b) = bytesOfString a ++ bytesOfString b := by
  rcases a with ⟨da⟩
  rcases b with ⟨db⟩
  simp [bytesOfString, String.data_append]

lemma chunk_header_bytes :
    bytesOfString "--frame\r\n" ++ bytesOfString "Content-Type: image/jpeg\r\n"
        ++ bytesOfString "Content-Length: " =
      bytesOfString "--frame\r\nContent-Type: image/jpeg\r\nContent-Length: " := by
  decide

/-- C3: for every non-empty viewer-resolution frame, the bytes the
streaming loop emits for its chunk are exactly the literal sequence
boundary, Content-Type header, Content-Length header with the exact byte
length, blank line, raw frame bytes, trailing CRLF. -/
theorem chunk_bytes_match_wire_format (frame : Frame) (h : frame ≠ []) :
    writeChunk frame = specChunk frame := by
  have h1 := bytesOfString_append
    ("--frame\r\nContent-Type: image/jpeg\r\nContent-Length: " ++ toString frame.length)
    "\r\n\r\n"
  have h2 := bytesOfString_append
    "--frame\r\nContent-Type: image/jpeg\r\nContent-Length: " (toString frame.length)
  have h3 := bytesOfString_append ("Content-Length: " ++ toString frame.length) "\r\n\r\n"
  have h4 := bytesOfString_append "Content-Length: " (toString frame.length)
  unfold writeChunk specChunk
  rw [h1, h2, h3, h4, ← chunk_header_bytes]
  simp [List.append_assoc]

/-- C3 witness: the chunk for the two-byte frame `[255, 216]`. -/
theorem chunk_bytes_match_wire_format_witness :
    writeChunk [255, 216] = specChunk [255, 216] :=
  chunk_bytes_match_wire_format [255, 216] (by decide)

/-- C4: a transcode failure on one frame is isolated — with clients
attached, running the production loop over a frame sequence containing a
frame whose transcode fails yields exactly the state of running it with
that frame removed: the bad frame is discarded, the loop continues, and
every later frame is processed and stored normally. -/
theorem transcode_failure_isolated (t : Frame → Option Frame) (c : Int)
    (s : LoopState) (fs gs : List Frame) (bad : Frame)
    (hc : 0 < c) (hbad : t bad = none) :
    runFrames t c s (fs ++ bad :: gs) = runFrames t c s (fs ++ gs) := by
  induction fs generalizing s with
  | nil => simp [runFrames, frameStep, hc, hbad]
  | cons f fs ih =>
      simp only [List.cons_append, runFrames]
      exact ih _

/-- C4 witness: with one client, a transcode that fails on `[9]` and
succeeds elsewhere: running `[[9], [1]]` equals running `[[1]]`, and the
frame after the failure lands in both store slots. -/
theorem transcode_failure_isolated_witness :
    runFrames (fun f => if f = [9] then none else some f) 1 LoopState.start [[9], [1]] =
      runFrames (fun f => if f = [9] then none else some f) 1 LoopState.start [[1]] ∧
    (runFrames (fun f => if f = [9] then none else some f) 1 LoopState.start
        [[9], [1]]).fb.currentFullFrame = some [1] ∧
    (runFrames (fun f => if f = [9] then none else some f) 1 LoopState.start
        [[9], [1]]).fb.currentSDFrame = some [1] :=
  ⟨transcode_failure_isolated (fun f => if f = [9] then none else some f) 1
      LoopState.start [] [[1]] [9] (by decide) (by decide),
    by decide, by decide⟩

/-- The SD slot, when populated, holds a successful transcode of the frame
currently in the full slot. -/
def SDDerived (t : Frame → Option Frame) (s : LoopState) : Prop :=
  ∀ v, s.fb.currentSDFrame = some v →
    ∃ f, s.fb.currentFullFrame = some f ∧ t f = some v

lemma frameStep_sdDerived (t : Frame → Option Frame) (c : Int) (s : LoopState)
    (f : Frame) (h : SDDerived t s) : SDDerived t (frameStep t c s f).1 := by
  unfold frameStep
  split
  · cases ht : t f with
    | none => simpa using h
    | some sd =>
        intro v hv
        simp [FrameBuffer.Update] at hv
        exact ⟨f, rfl, by rw [ht, hv]⟩
  · exact h

lemma captureTrace_sdDerived (t : Frame → Option Frame) :
    ∀ (trace : List (Int × Frame)) (s : LoopState),
      SDDerived t s → SDDerived t (captureTrace t s trace)
  | [], s, h => h
  | (c, f) :: rest, s, h =>
      captureTrace_sdDerived t rest _ (frameStep_sdDerived t c s f h)

/-- C6: in every state of the frame store reachable by the production loop
from startup — any sequence of delivered frames, each processed at an
arbitrary demand-tracker reading — a populated viewer-resolution slot
implies a populated full-resolution slot (the converse never occurs), and
the stored viewer frame is the successful transcode of the full frame
stored with it (hence derived from a full frame stored at or before it). -/
theorem viewer_slot_derived_from_full (t : Frame → Option Frame)
    (trace : List (Int × Frame)) (v : Frame)
    (hv : (captureTrace t LoopState.start trace).fb.currentSDFrame = some v) :
    ∃ f, (captureTrace t LoopState.start trace).fb.currentFullFrame = some f ∧
      t f = some v := by
  refine captureTrace_sdDerived t trace LoopState.start ?_ v hv
  intro w hw
  simp [LoopState.start, FrameBuffer.empty] at hw

/-- C6 witness: after the trace that processes frame `[5]` with one client
attached, the viewer slot holds `[5]` and it is derived from the stored
full frame. -/
theorem viewer_slot_derived_from_full_witness :
    ∃ f, (captureTrace (fun x => some x) LoopState.start
        [(1, [5])]).fb.currentFullFrame = some f ∧
      (fun x => some x) f = some ([5] : Frame) :=
  viewer_slot_derived_from_full (fun x => some x) [(1, [5])] [5] (by decide)

lemma countP_emitChunks (p : ConnEvent → Bool) (hp : ∀ f, p (.emitChunk f) = false)
    (ws : List Frame) : (ws.map ConnEvent.emitChunk).countP p = 0 := by
  induction ws with
  | nil => rfl
  | cons w ws ih => simp [List.countP_cons, hp, ih]

lemma runConn_emitChunks (c : Int) (ws : List Frame) :
    runConn c (ws.map ConnEvent.emitChunk) = c := by
  induction ws generalizing c with
  | nil => rfl
  | cons w ws ih => simpa [runConn, List.foldl_cons, applyConn] using ih c

lemma runConn_handlerTrace (c : Int) (o : ConnOutcome) :
    runConn c (handlerTrace o) = c := by
  cases o with
  | noFlusher => simp [handlerTrace, runConn, applyConn]
  | writeFailed ws =>
      have := runConn_emitChunks (c + 1) ws
      simp only [handlerTrace, runConn, List.foldl_cons, List.foldl_append, applyConn]
      simp only [runConn] at this
      rw [this]
      simp [applyConn]
  | panicked ws =>
      have := runConn_emitChunks (c + 1) ws
      simp only [handlerTrace, runConn, List.foldl_cons, List.foldl_append, applyConn]
      simp only [runConn] at this
      rw [this]
      simp [applyConn]

/-- C9: for every accepted streaming connection, whatever its outcome (no
flusher support, write failure after any number of chunks, or a panic
mid-stream), the handler trace contains exactly one demand-tracker
increment and exactly one decrement, the counter is left exactly where it
started, and any number of repeated attach/fail cycles leaves the counter
unchanged (no leak, no double count). -/
theorem demand_tracker_balanced (o : ConnOutcome) (c : Int) :
    (handlerTrace o).countP isAttach = 1 ∧
    (handlerTrace o).countP isDetach = 1 ∧
    runConn c (handlerTrace o) = c ∧
    (∀ os : List ConnOutcome, runConn c (os.flatMap handlerTrace) = c) := by
  refine ⟨?_, ?_, runConn_handlerTrace c o, ?_⟩
  · cases o <;>
      simp [handlerTrace, List.countP_cons, List.countP_append, isAttach,
        countP_emitChunks (fun e => isAttach e) (fun f => rfl)]
  · cases o <;>
      simp [handlerTrace, List.countP_cons, List.countP_append, isDetach,
        countP_emitChunks (fun e => isDetach e) (fun f => rfl)]
  · intro os
    induction os generalizing c with
    | nil => rfl
    | cons o' os ih =>
        simp only [List.flatMap_cons, runConn, List.foldl_append]
        have h1 := runConn_handlerTrace c o'
        simp only [runConn] at h1
        rw [h1]
        exact ih c

lemma dispatchParts_set_control (rest : List (List Char)) :
    dispatchParts ("SET_CONTROL".data :: rest) = setControlDispatch rest := by
  simp only [dispatchParts]
  rw [if_neg (by decide), if_neg (by decide), if_neg (by decide), if_pos (by decide)]

/-- C7: a SET_CONTROL command line whose argument count is not exactly two,
or whose identifier or value fails the numeric scan, is answered with a
structured validation-error response (never a crash: dispatch is a total
function), and the command loop dispatches every subsequent line
independently of the lines before it. -/
theorem set_control_validation (rest : List (List Char)) (idS vS : List Char) :
    (rest.length ≠ 2 →
      dispatchParts ("SET_CONTROL".data :: rest) = .setControlError .badArity) ∧
    (sscanUint32 idS = none →
      dispatchParts ["SET_CONTROL".data, idS, vS] = .setControlError .badID) ∧
    (∀ id, sscanUint32 idS = some id → sscanInt32 vS = none →
      dispatchParts ["SET_CONTROL".data, idS, vS] = .setControlError .badValue) ∧
    (∀ line lines, listenStdinRun (line :: lines) =
      dispatchLine line :: listenStdinRun lines) := by
  refine ⟨?_, ?_, ?_, ?_⟩
  · intro hlen
    rw [dispatchParts_set_control]
    rcases rest with _ | ⟨a, _ | ⟨b, _ | ⟨c, r⟩⟩⟩
    · rfl
    · rfl
    · exact absurd rfl hlen
    · rfl
  · intro hid
    rw [dispatchParts_set_control]
    simp [setControlDispatch, hid]
  · intro id hid hv
    rw [dispatchParts_set_control]
    simp [setControlDispatch, hid, hv]
  · intro line lines
    rfl

/-- C7 witness: `SET_CONTROL abc 5` (non-numeric id) yields the structured
validation error, and the very next line `SET_CONTROL 1 2` is accepted and
reaches the device call. -/
theorem set_control_validation_witness :
    dispatchParts ["SET_CONTROL".data, "abc".data, "5".data] = .setControlError .badID ∧
    listenStdinRun ["SET_CONTROL abc 5".data, "SET_CONTROL 1 2".data] =
      [.setControlError .badID, .setControlRequest 1 2] :=
  ⟨(set_control_validation [] "abc".data "5".data).2.1 (by decide), by decide⟩

/-- C2: counterexample run of the streaming system. Two streaming loops are
attached and one frame is produced; loop 0 drains the single shared
notification and writes the frame; afterwards loop 1 has observed nothing
and its receive — like every other receive — is permanently disabled: the
shared capacity-one channel delivered the production event to exactly one
consumer, so loop 1 is starved of the final frame forever. -/
theorem notify_single_delivery_starves :
    ∃ s : StreamSys,
      runEvents (fun f => some f) ⟨FrameBuffer.empty, 0, [[], []]⟩
          [.produce [7], .recv 0] = some s ∧
      s.observed.getD 0 [] = [[7]] ∧
      s.observed.getD 1 [] = [] ∧
      sysStep (fun f => some f) s (.recv 1) = none ∧
      sysStep (fun f => some f) s (.recv 0) = none := by
  refine ⟨⟨⟨some [7], some [7]⟩, 0, [[[7]], []]⟩, ?_, ?_, ?_, ?_, ?_⟩ <;> decide
